import Mathlib

/-!
Verification of the `kit_test` hardware-abstraction layer against its
natural-language specification.

The development shallowly embeds the relevant parts of
`src/kit_test/hal/` (the numeric codec in `utils.py`, the status-line
decoders, board construction, cleanup registration, the power-board
command routing helpers, and serial-port discovery) as executable Lean
definitions.  Python floats are modelled as exact rationals, Python
integers as `Int`, fallible Python operations (exceptions) as `Option`
or `Except` results, and wire strings as Lean strings.
-/

set_option maxRecDepth 4000

/-! ## Numeric codec (`kit_test/hal/utils.py`) -/

/-- Truncation toward zero, the semantics of Python's `int(float)`
conversion used at the end of `map_to_int`. -/
def truncToZero (q : ℚ) : ℤ :=
  if 0 ≤ q then ⌊q⌋ else ⌈q⌉

/-- Round a rational to the nearest integer, ties going to the even
integer: the rounding mode of Python's built-in `round`. -/
def roundHalfEven (q : ℚ) : ℤ :=
  if q - ⌊q⌋ < 1 / 2 then ⌊q⌋
  else if 1 / 2 < q - ⌊q⌋ then ⌊q⌋ + 1
  else if Even ⌊q⌋ then ⌊q⌋ else ⌊q⌋ + 1

/-- Python's `round(x, precision)`: round to `precision` decimal digits,
ties to even. -/
def pyRound (q : ℚ) (precision : ℕ) : ℚ :=
  (roundHalfEven (q * 10 ^ precision) : ℚ) / 10 ^ precision

/-- Embedding of `map_to_int` from `kit_test/hal/utils.py`:
`value = (x - in_min) * (out_max - out_min) / (in_max - in_min) + out_min`
followed by `int(value)`.  Python raises `ZeroDivisionError` when
`in_max == in_min`, modelled by `none`. -/
def map_to_int (x in_min in_max : ℚ) (out_min out_max : ℤ) : Option ℤ :=
  if in_max - in_min = 0 then none
  else some (truncToZero
    ((x - in_min) * ((out_max : ℚ) - (out_min : ℚ)) / (in_max - in_min) + (out_min : ℚ)))

/-- Embedding of `map_to_float` from `kit_test/hal/utils.py`:
`value = (x - in_min) * (out_max - out_min) / (in_max - in_min) + out_min`
followed by `round(value, precision)`.  Python raises
`ZeroDivisionError` when `in_max == in_min`, modelled by `none`. -/
def map_to_float (x : ℤ) (in_min in_max : ℤ) (out_min out_max : ℚ)
    (precision : ℕ) : Option ℚ :=
  if (in_max : ℚ) - (in_min : ℚ) = 0 then none
  else some (pyRound
    (((x : ℚ) - (in_min : ℚ)) * (out_max - out_min) / ((in_max : ℚ) - (in_min : ℚ)) + out_min)
    precision)

/-- The affine map sending the interval `[a, b]` onto `[c, d]`, written
the way the specification describes it ("affine transform"): the image
of `x` under the unique affine map with `a ↦ c` and `b ↦ d`. -/
def affine_image (a b c d x : ℚ) : ℚ :=
  c + (d - c) * (x - a) / (b - a)

/-! Basic facts about the codec primitives. -/

theorem truncToZero_intCast (n : ℤ) : truncToZero (n : ℚ) = n := by
  unfold truncToZero
  rcases le_or_lt 0 (n : ℚ) with h | h
  · simp [h]
  · simp [not_le.mpr h]

theorem roundHalfEven_intCast (n : ℤ) : roundHalfEven (n : ℚ) = n := by
  unfold roundHalfEven
  have hf : ⌊(n : ℚ)⌋ = n := Int.floor_intCast n
  rw [hf]
  norm_num

theorem pyRound_int_div_pow (n : ℤ) (p : ℕ) :
    pyRound ((n : ℚ) / 10 ^ p) p = (n : ℚ) / 10 ^ p := by
  unfold pyRound
  have h10 : ((10 : ℚ) ^ p) ≠ 0 := by positivity
  rw [div_mul_cancel₀ _ h10, roundHalfEven_intCast]

theorem pyRound_fixed_of_mul_pow_int (q : ℚ) (p : ℕ)
    (h : ∃ n : ℤ, q * 10 ^ p = (n : ℤ)) : pyRound q p = q := by
  obtain ⟨n, hn⟩ := h
  have h10 : ((10 : ℚ) ^ p) ≠ 0 := by positivity
  have hq : q = (n : ℚ) / 10 ^ p := by
    field_simp
    exact_mod_cast hn
  rw [hq, pyRound_int_div_pow]

example : truncToZero (19 / 10) = 1 := by norm_num [truncToZero]
example : truncToZero (-19 / 10) = -1 := by norm_num [truncToZero, Int.ceil_eq_iff]
example : roundHalfEven (1 / 2) = 0 := by norm_num [roundHalfEven]
example : roundHalfEven (3 / 2) = 2 := by norm_num [roundHalfEven]
example : roundHalfEven (19 / 10) = 2 := by norm_num [roundHalfEven]
example : pyRound (19 / 10000) 3 = 2 / 1000 := by norm_num [pyRound, roundHalfEven]
example : map_to_int (19 / 10000) (-1) 1 (-1000) 1000 = some 1 := by
  norm_num [map_to_int, truncToZero]
example : map_to_float 1 (-1000) 1000 (-1) 1 3 = some (1 / 1000) := by
  norm_num [map_to_float, pyRound, roundHalfEven]

/-! ## Wire-string utilities

Python's `str.split(sep)` for a single-character separator, as used by
the status decoders and `identify` (`response.split(':')`,
`flags.split(',')`): every occurrence of the separator delimits a
field, empty fields are kept, and the empty string splits to one empty
field. -/

/-- Split a character list at every occurrence of `sep`, keeping empty
fields (Python `str.split` with an explicit separator). -/
def splitOnCharList (sep : Char) : List Char → List (List Char)
  | [] => [[]]
  | c :: rest =>
    if c = sep then [] :: splitOnCharList sep rest
    else
      match splitOnCharList sep rest with
      | [] => [[c]]
      | h :: t => (c :: h) :: t

/-- Python `s.split(sep)` for a one-character separator `sep`. -/
def pySplit (s : String) (sep : Char) : List String :=
  (splitOnCharList sep s.data).map fun l => ⟨l⟩

theorem splitOnCharList_ne_nil (sep : Char) (l : List Char) :
    splitOnCharList sep l ≠ [] := by
  cases l with
  | nil => simp [splitOnCharList]
  | cons c rest =>
    unfold splitOnCharList
    by_cases h : c = sep
    · simp [h]
    · simp only [h, if_false]
      cases splitOnCharList sep rest <;> simp

theorem splitOnCharList_cons_ne (sep c : Char) (l : List Char) (h : c ≠ sep)
    (x : List Char) (t : List (List Char))
    (hl : splitOnCharList sep l = x :: t) :
    splitOnCharList sep (c :: l) = (c :: x) :: t := by
  unfold splitOnCharList
  simp [h, hl]

theorem splitOnCharList_exists_cons (sep : Char) (l : List Char) :
    ∃ x t, splitOnCharList sep l = x :: t := by
  cases hl : splitOnCharList sep l with
  | nil => exact absurd hl (splitOnCharList_ne_nil sep l)
  | cons x t => exact ⟨x, t, rfl⟩

/-- Splitting distributes over an explicit separator occurrence. -/
theorem splitOnCharList_append_sep (sep : Char) (a b : List Char) :
    splitOnCharList sep (a ++ sep :: b) =
      splitOnCharList sep a ++ splitOnCharList sep b := by
  induction a with
  | nil => simp [splitOnCharList]
  | cons c rest ih =>
    by_cases h : c = sep
    · simp [splitOnCharList, h, ih]
    · obtain ⟨x, t, hr⟩ := splitOnCharList_exists_cons sep rest
      have hr2 : splitOnCharList sep (rest ++ sep :: b) =
          x :: (t ++ splitOnCharList sep b) := by
        rw [ih, hr]
        rfl
      rw [List.cons_append, splitOnCharList_cons_ne sep c _ h _ _ hr2,
        splitOnCharList_cons_ne sep c rest h x t hr]
      rfl

/-- A separator-free chunk splits to the single field it is. -/
theorem splitOnCharList_of_not_mem (sep : Char) (l : List Char)
    (h : sep ∉ l) : splitOnCharList sep l = [l] := by
  induction l with
  | nil => rfl
  | cons c rest ih =>
    have hc : c ≠ sep := fun hc => h (hc ▸ List.mem_cons_self c rest)
    have hr : sep ∉ rest := fun hr => h (List.mem_cons_of_mem c hr)
    unfold splitOnCharList
    simp [hc, ih hr]

theorem pySplit_append_sep (a b : String) (sep : Char) :
    pySplit (a ++ ⟨[sep]⟩ ++ b) sep = pySplit a sep ++ pySplit b sep := by
  unfold pySplit
  rw [String.data_append, String.data_append]
  show (splitOnCharList sep (a.data ++ [sep] ++ b.data)).map _ = _
  rw [List.append_assoc, List.singleton_append, splitOnCharList_append_sep,
    List.map_append]

theorem pySplit_of_not_mem (s : String) (sep : Char) (h : sep ∉ s.data) :
    pySplit s sep = [s] := by
  unfold pySplit
  rw [splitOnCharList_of_not_mem sep s.data h]
  rfl

example : pySplit "1,0:245:1:11980:" ':' = ["1,0", "245", "1", "11980", ""] := rfl
example : pySplit "" ':' = [""] := rfl
example : pySplit "1,0" ',' = ["1", "0"] := rfl

/-! ## Numeric field parsing

Python's `int(s)` and `float(s)` as applied to wire fields: an optional
sign followed by decimal digits (for `float`, optionally with a
fractional part).  A field that does not parse raises `ValueError` in
Python, modelled by `none`. -/

/-- Numeric value of a digit string (most significant digit first). -/
def digitsVal (l : List Char) : ℕ :=
  l.foldl (fun a c => a * 10 + (c.toNat - 48)) 0

/-- Parse a non-empty all-digit character list. -/
def pyParseNat (l : List Char) : Option ℕ :=
  if l ≠ [] ∧ l.all Char.isDigit then some (digitsVal l) else none

/-- Python `int(s)` on a wire field: optional sign, then digits. -/
def pyParseInt (s : String) : Option ℤ :=
  match s.data with
  | '-' :: rest => (pyParseNat rest).map fun n => -(n : ℤ)
  | '+' :: rest => (pyParseNat rest).map fun n => (n : ℤ)
  | l => (pyParseNat l).map fun n => (n : ℤ)

/-- Unsigned decimal literal with an optional fractional part, the
forms of `float(s)` the firmware actually emits. -/
def pyParseDecimal (l : List Char) : Option ℚ :=
  match splitOnCharList '.' l with
  | [ip] =>
    (pyParseNat ip).map fun n => (n : ℚ)
  | [ip, fp] =>
    if ip.all Char.isDigit ∧ fp.all Char.isDigit ∧ (ip ≠ [] ∨ fp ≠ []) then
      some ((digitsVal ip : ℚ) + (digitsVal fp : ℚ) / 10 ^ fp.length)
    else none
  | _ => none

/-- Python `float(s)` on a wire field: optional sign, then a decimal
literal. -/
def pyParseFloat (s : String) : Option ℚ :=
  match s.data with
  | '-' :: rest => (pyParseDecimal rest).map fun q => -q
  | '+' :: rest => pyParseDecimal rest
  | l => pyParseDecimal l

example : pyParseInt "245" = some 245 := rfl
example : pyParseInt "-12" = some (-12) := rfl
example : pyParseInt "1a" = none := rfl
example : pyParseFloat "11980" = some 11980 := rfl
example : pyParseFloat "12000" = some 12000 := rfl

/-! ## Status records and decoders -/

/-- Status of the motor board (`MotorStatus` in
`kit_test/hal/motor_board.py`): per-channel fault flags, input voltage
in volts, and the raw trailing fields. -/
structure MotorStatus where
  output_faults : List Bool
  input_voltage : ℚ
  other : List String
deriving DecidableEq, Repr

/-- The unpacking step of `MotorStatus.from_status_response`:
`output_fault_str, input_voltage_mv, *other = response.split(':')`
(`ValueError` when fewer than two fields), fault flags from the
comma-separated group, voltage as `float(input_voltage_mv) / 1000`. -/
def MotorStatus.decodeFields : List String → Option MotorStatus
  | output_fault_str :: input_voltage_mv :: other =>
    (pyParseFloat input_voltage_mv).map fun mv =>
      { output_faults := (pySplit output_fault_str ',').map fun p => p == "1"
        input_voltage := mv / 1000
        other := other }
  | _ => none

/-- Embedding of `MotorStatus.from_status_response`: split the status
line on colons and unpack. -/
def MotorStatus.from_status_response (response : String) : Option MotorStatus :=
  MotorStatus.decodeFields (pySplit response ':')

/-- Status of the power board (`PowerStatus` in
`kit_test/hal/power_board.py`). -/
structure PowerStatus where
  overcurrent : List Bool
  temperature : ℤ
  fan_running : Bool
  regulator_voltage : ℚ
  other : List String
deriving DecidableEq, Repr

/-- The unpacking step of `PowerStatus.from_status_response`:
`oc_flags, temp, fan_running, raw_voltage, *other = response.split(':')`
(`ValueError` when fewer than four fields), overcurrent flags from the
comma-separated group, `int(temp)`, fan flag, and
`float(raw_voltage) / 1000`. -/
def PowerStatus.decodeFields : List String → Option PowerStatus
  | oc_flags :: temp :: fan_running :: raw_voltage :: other =>
    (pyParseInt temp).bind fun t =>
      (pyParseFloat raw_voltage).map fun v =>
        { overcurrent := (pySplit oc_flags ',').map fun x => x == "1"
          temperature := t
          fan_running := fan_running == "1"
          regulator_voltage := v / 1000
          other := other }
  | _ => none

/-- Embedding of `PowerStatus.from_status_response`: split the status
line on colons and unpack. -/
def PowerStatus.from_status_response (response : String) : Option PowerStatus :=
  PowerStatus.decodeFields (pySplit response ':')

/-- Status of the servo board (`ServoStatus` in
`kit_test/hal/servo_board.py`): note that, unlike the motor and power
records, it has no trailing `other` field. -/
structure ServoStatus where
  watchdog_failed : Bool
  power_good : Bool
deriving DecidableEq, Repr

/-- The field-reading step of `ServoStatus.from_status_response`:
positional reads of `data[0]` and `data[1]` (`IndexError`, modelled by
`none`, when fewer than two fields); any further fields are ignored. -/
def ServoStatus.decodeFields : List String → Option ServoStatus
  | d0 :: d1 :: _ =>
    some { watchdog_failed := d0 == "1", power_good := d1 == "1" }
  | _ => none

/-- Embedding of `ServoStatus.from_status_response`:
`data = response.split(':')` followed by positional field reads. -/
def ServoStatus.from_status_response (response : String) : Option ServoStatus :=
  ServoStatus.decodeFields (pySplit response ':')

/-! ## Board identity (`BoardIdentity` in `kit_test/hal/utils.py`) -/

/-- Identity of a board as reported by the `*IDN?` query; all four
fields default to the empty string. -/
structure BoardIdentity where
  manufacturer : String := ""
  board_type : String := ""
  asset_tag : String := ""
  sw_version : String := ""
deriving DecidableEq, Repr

/-- Positional construction `BoardIdentity(*fields)`: missing trailing
arguments take their `""` defaults, more than four positional
arguments raise `TypeError`, modelled by `none`. -/
def BoardIdentity.ofFields (fields : List String) : Option BoardIdentity :=
  match fields with
  | [] => some {}
  | [a] => some { manufacturer := a }
  | [a, b] => some { manufacturer := a, board_type := b }
  | [a, b, c] => some { manufacturer := a, board_type := b, asset_tag := c }
  | [a, b, c, d] =>
    some { manufacturer := a, board_type := b, asset_tag := c, sw_version := d }
  | _ => none

/-- Embedding of the (identical) `identify` methods of `MotorBoard`,
`PowerBoard` and `ServoBoard`:
`BoardIdentity(*response.split(':'))` applied to the `*IDN?` response. -/
def identifyResponse (response : String) : Option BoardIdentity :=
  BoardIdentity.ofFields (pySplit response ':')

example : ServoStatus.from_status_response "1:0" =
    some { watchdog_failed := true, power_good := false } := rfl
example : ServoStatus.from_status_response "1" = none := rfl
example : identifyResponse "SRO:PBv4B:tag:4.4" =
    some { manufacturer := "SRO", board_type := "PBv4B",
           asset_tag := "tag", sw_version := "4.4" } := rfl
example : identifyResponse "a:b:c:d:e" = none := rfl
example : identifyResponse "a" = some { manufacturer := "a" } := rfl

/-! ## Motor power round trip (`Motor` in `kit_test/hal/motor_board.py`)

The claimed round trip is stated against a firmware model that simply
stores what the driver last wrote: `MOT:<n>:SET:<sp>` stores the wire
integer `sp` and marks the channel enabled, `MOT:<n>:DISABLE` marks it
disabled, and `MOT:<n>:GET?` echoes the enabled flag and the stored
integer back. -/

/-- `MotorPower.BRAKE` from `kit_test/hal/motor_board.py`. -/
def MotorPower.BRAKE : ℚ := 0

/-- `MotorPower.COAST` from `kit_test/hal/motor_board.py`: a sentinel
outside the allowable range. -/
def MotorPower.COAST : ℚ := -1024

/-- Echo-firmware state of one motor channel: the enabled flag and the
last stored wire integer, exactly what `MOT:<n>:GET?` reports. -/
structure MotorChannelState where
  enabled : Bool
  value : ℤ
deriving DecidableEq, Repr

/-- Embedding of `Motor.set_power` acting on the echo firmware: writing
`COAST` issues `MOT:<n>:DISABLE`; any other value is encoded with
`map_to_int(value, -1.0, 1.0, -1000, 1000)` and issued with
`MOT:<n>:SET:<setpoint>`. -/
def Motor.set_power (st : MotorChannelState) (value : ℚ) :
    Option MotorChannelState :=
  if value = MotorPower.COAST then some { st with enabled := false }
  else (map_to_int value (-1) 1 (-1000) 1000).map fun setpoint =>
    { enabled := true, value := setpoint }

/-- Embedding of `Motor.get_power` acting on the echo firmware: a
disabled channel reads as `MotorPower.COAST`, an enabled one as
`map_to_float(value, -1000, 1000, -1.0, 1.0, precision=3)`. -/
def Motor.get_power (st : MotorChannelState) : Option ℚ :=
  if st.enabled = false then some MotorPower.COAST
  else map_to_float st.value (-1000) 1000 (-1) 1 3

/-! ## Board construction (`__init__` of the three driver classes) -/

/-- Failure modes of driver construction: the `assert` comparing the
reported `board_type` against the family's expected short code, or a
`TypeError` escaping from `identify` itself. -/
inductive InitError where
  | typeMismatch (expected actual : String)
  | identifyError
deriving DecidableEq, Repr

/-- Result of running a driver `__init__` against a port whose `*IDN?`
exchange yields a given response line: the construction outcome plus
the list of cleanup routines the call registered with `atexit`. -/
structure InitOutcome where
  result : Except InitError BoardIdentity
  atexit_hooks : List String
deriving Repr

/-- Embedding of `MotorBoard.__init__` from the identify exchange on:
parse the `*IDN?` response, assert `board_type == 'MCv4B'`.  Note that
`MotorBoard.__init__` registers no `atexit` hook on any path. -/
def MotorBoard.init (idn_response : String) : InitOutcome :=
  match identifyResponse idn_response with
  | none => { result := .error .identifyError, atexit_hooks := [] }
  | some identity =>
    if identity.board_type = "MCv4B" then
      { result := .ok identity, atexit_hooks := [] }
    else
      { result := .error (.typeMismatch "MCv4B" identity.board_type)
        atexit_hooks := [] }

/-- Embedding of `PowerBoard.__init__` from the identify exchange on:
parse the `*IDN?` response, assert `board_type == 'PBv4B'`, and only
then `atexit.register(self._cleanup)`. -/
def PowerBoard.init (idn_response : String) : InitOutcome :=
  match identifyResponse idn_response with
  | none => { result := .error .identifyError, atexit_hooks := [] }
  | some identity =>
    if identity.board_type = "PBv4B" then
      { result := .ok identity, atexit_hooks := ["PowerBoard._cleanup"] }
    else
      { result := .error (.typeMismatch "PBv4B" identity.board_type)
        atexit_hooks := [] }

/-- Embedding of `ServoBoard.__init__` from the identify exchange on:
parse the `*IDN?` response, assert `board_type == 'SBv4B'`, and only
then `atexit.register(self._cleanup)`. -/
def ServoBoard.init (idn_response : String) : InitOutcome :=
  match identifyResponse idn_response with
  | none => { result := .error .identifyError, atexit_hooks := [] }
  | some identity =>
    if identity.board_type = "SBv4B" then
      { result := .ok identity, atexit_hooks := ["ServoBoard._cleanup"] }
    else
      { result := .error (.typeMismatch "SBv4B" identity.board_type)
        atexit_hooks := [] }

/-! ## Cleanup routines (`_cleanup` of `PowerBoard` and `ServoBoard`) -/

/-- An arbitrary Python exception, as caught by `except Exception`. -/
inductive PyExc where
  | exception (msg : String)
deriving DecidableEq, Repr

/-- What a cleanup run produced besides its commands: nothing, or a
logged warning. -/
inductive CleanupLog where
  | quiet
  | warning (msg : String)
deriving DecidableEq, Repr

/-- Embedding of `PowerBoard._cleanup`: `try: self.reset() except
Exception: logger.warning(...)`.  The argument is the outcome of the
inner `reset` call; the `Except` result records whether the cleanup
itself raises. -/
def PowerBoard.cleanup (reset_outcome : Except PyExc Unit) :
    Except PyExc CleanupLog :=
  match reset_outcome with
  | .ok _ => .ok .quiet
  | .error _ => .ok (.warning "Failed to cleanup power board.")

/-- Embedding of `ServoBoard._cleanup`, parameterised by the serial
wrapper's printed form used in the warning message. -/
def ServoBoard.cleanup (serial : String) (reset_outcome : Except PyExc Unit) :
    Except PyExc CleanupLog :=
  match reset_outcome with
  | .ok _ => .ok .quiet
  | .error _ =>
    .ok (.warning ("Failed to cleanup servo board " ++ serial ++ "."))

/-! ## Power-board commands (`PowerBoard.reset` and `Output.enable`) -/

/-- `PowerOutputPosition.H0` from `kit_test/hal/power_board.py`. -/
def PowerOutputPosition.H0 : ℕ := 0

/-- `PowerOutputPosition.H1`. -/
def PowerOutputPosition.H1 : ℕ := 1

/-- `PowerOutputPosition.L0`. -/
def PowerOutputPosition.L0 : ℕ := 2

/-- `PowerOutputPosition.L1`. -/
def PowerOutputPosition.L1 : ℕ := 3

/-- `PowerOutputPosition.L2`. -/
def PowerOutputPosition.L2 : ℕ := 4

/-- `PowerOutputPosition.L3`. -/
def PowerOutputPosition.L3 : ℕ := 5

/-- `PowerOutputPosition.FIVE_VOLT`. -/
def PowerOutputPosition.FIVE_VOLT : ℕ := 6

/-- `BRAIN_OUTPUT = PowerOutputPosition.L2`: the always-on output. -/
def BRAIN_OUTPUT : ℕ := PowerOutputPosition.L2

/-- Python `f'{bool(value):d}'`. -/
def boolToWire (value : Bool) : String :=
  if value then "1" else "0"

/-- The system-level brain-output command `*SYS:BRAIN:SET:<0|1>`. -/
def sysBrainSetCommand (value : Bool) : String :=
  "*SYS:BRAIN:SET:" ++ boolToWire value

/-- The ordinary per-channel output command `OUT:<n>:SET:<0|1>`. -/
def outSetCommand (index : ℕ) (value : Bool) : String :=
  "OUT:" ++ toString index ++ ":SET:" ++ boolToWire value

/-- Embedding of `Output.enable`: the brain output is routed through
the system-level command, every other index through the per-channel
command. -/
def Output.enable (index : ℕ) (value : Bool) : String :=
  if index = BRAIN_OUTPUT then sysBrainSetCommand value
  else outSetCommand index value

/-- Embedding of `PowerBoard.reset`: the writes it performs, in order —
the board-global `*RESET` followed by the manual brain-output disable. -/
def PowerBoard.reset_commands : List String :=
  ["*RESET", "*SYS:BRAIN:SET:0"]

/-! ## Discovery (`kit_test/hal/discovery.py`) -/

/-- `VidPid`: USB vendor and product ID pair. -/
structure VidPid where
  vendor_id : ℕ
  product_id : ℕ
deriving DecidableEq, Repr

/-- The fields of pyserial's `ListPortInfo` that `discover_boards` and
`get_USB_identity` read; absent descriptor values are `None`. -/
structure ListPortInfo where
  vid : Option ℕ
  pid : Option ℕ
  device : String
  manufacturer : Option String
  product : Option String
  serial_number : Option String
deriving DecidableEq, Repr

/-- `Port`: the port name plus the USB-derived identity. -/
structure Port where
  port : String
  identity : BoardIdentity
deriving DecidableEq, Repr

/-- Embedding of `get_USB_identity`: approximate identity from the USB
descriptor, `x or ""` for each possibly missing field, and no
`sw_version`. -/
def get_USB_identity (port : ListPortInfo) : BoardIdentity :=
  { manufacturer := port.manufacturer.getD ""
    board_type := port.product.getD ""
    asset_tag := port.serial_number.getD "" }

/-- The scan loop of `discover_boards`: walk the enumerated ports in
order, `continue` on a missing vid or pid, `continue` on a `VidPid`
outside the candidate list, and otherwise append one `Port`. -/
def discoverLoop (pidvids : List VidPid) : List ListPortInfo → List Port
  | [] => []
  | port :: rest =>
    match port.vid, port.pid with
    | some v, some p =>
      if (⟨v, p⟩ : VidPid) ∈ pidvids then
        ⟨port.device, get_USB_identity port⟩ :: discoverLoop pidvids rest
      else discoverLoop pidvids rest
    | _, _ => discoverLoop pidvids rest

/-- Embedding of `discover_boards`: the `isinstance(pidvids, VidPid)`
shorthand wraps a single pair into a one-element list, then the scan
loop runs over the enumerated serial devices. -/
def discover_boards (pidvids : VidPid ⊕ List VidPid)
    (comports : List ListPortInfo) : List Port :=
  discoverLoop
    (match pidvids with
     | .inl single => [single]
     | .inr l => l)
    comports

/-! ## Claims about the codec -/

theorem pyRound_intCast (n : ℤ) (p : ℕ) : pyRound (n : ℚ) p = (n : ℚ) := by
  apply pyRound_fixed_of_mul_pow_int
  exact ⟨n * 10 ^ p, by push_cast; ring⟩

/-- Claim C1, counterexample.  The claim asserts endpoint exactness of
the codec for every tuple with `in_min ≠ in_max`.  It fails in the
`from_wire` direction: for the tuple
`(in_min, in_max, out_min, out_max) = (1/2000, 1, 0, 1000)` the value
`from_wire_float(out_min, out_min, out_max, in_min, in_max, 3)`
rounds `in_min = 0.0005` away to `0`; and for the tuple
`(0, 1, 5, 5)` the same call divides by zero (`ZeroDivisionError`)
instead of returning `in_min`. -/
theorem c1_counterexample :
    map_to_float 0 0 1000 (1 / 2000) 1 3 ≠ some (1 / 2000) ∧
    map_to_float 5 5 5 0 1 3 ≠ some 0 := by
  constructor
  · intro h
    rw [show map_to_float 0 0 1000 (1 / 2000) 1 3 =
        some (pyRound (((0 : ℚ) - 0) * (1 - 1 / 2000) / (1000 - 0) + 1 / 2000) 3) by
      unfold map_to_float
      norm_num] at h
    rw [show (((0 : ℚ) - 0) * (1 - 1 / 2000) / (1000 - 0) + 1 / 2000) = 1 / 2000 by
      norm_num] at h
    rw [show pyRound (1 / 2000) 3 = 0 by
      unfold pyRound roundHalfEven
      norm_num] at h
    simp at h
  · intro h
    unfold map_to_float at h
    norm_num at h
    exact Option.noConfusion h

/-- Claim C1, amended: `to_wire_int` maps both endpoints exactly for
every tuple with `in_min ≠ in_max`; the `from_wire_float` endpoint
equations additionally require `out_min ≠ out_max` (else Python raises
`ZeroDivisionError`) and that the endpoint being recovered is exactly
representable at the requested decimal precision. -/
theorem c1_amended (in_min in_max : ℚ) (out_min out_max : ℤ) (p : ℕ)
    (hin : in_min ≠ in_max) :
    map_to_int in_min in_min in_max out_min out_max = some out_min ∧
    map_to_int in_max in_min in_max out_min out_max = some out_max ∧
    (out_min ≠ out_max → pyRound in_min p = in_min →
      map_to_float out_min out_min out_max in_min in_max p = some in_min) ∧
    (out_min ≠ out_max → pyRound in_max p = in_max →
      map_to_float out_max out_min out_max in_min in_max p = some in_max) := by
  have hsub : in_max - in_min ≠ 0 := sub_ne_zero_of_ne (Ne.symm hin)
  have hcast : ∀ hout : out_min ≠ out_max, (out_max : ℚ) - (out_min : ℚ) ≠ 0 := by
    intro hout h
    exact hout (by exact_mod_cast (sub_eq_zero.mp h).symm)
  refine ⟨?_, ?_, ?_, ?_⟩
  · unfold map_to_int
    rw [if_neg hsub]
    rw [show (in_min - in_min) * ((out_max : ℚ) - (out_min : ℚ)) / (in_max - in_min) +
        (out_min : ℚ) = (out_min : ℚ) by ring]
    rw [truncToZero_intCast]
  · unfold map_to_int
    rw [if_neg hsub]
    rw [show (in_max - in_min) * ((out_max : ℚ) - (out_min : ℚ)) / (in_max - in_min) +
        (out_min : ℚ) = ((out_max : ℚ) - (out_min : ℚ)) * ((in_max - in_min) / (in_max - in_min)) +
        (out_min : ℚ) by ring]
    rw [div_self hsub]
    rw [show ((out_max : ℚ) - (out_min : ℚ)) * 1 + (out_min : ℚ) = (out_max : ℚ) by ring]
    rw [truncToZero_intCast]
  · intro hout hmin
    have hsubz := hcast hout
    unfold map_to_float
    rw [if_neg hsubz]
    rw [show ((out_min : ℚ) - (out_min : ℚ)) * (in_max - in_min) /
        ((out_max : ℚ) - (out_min : ℚ)) + in_min = in_min by ring]
    rw [hmin]
  · intro hout hmax
    have hsubz := hcast hout
    unfold map_to_float
    rw [if_neg hsubz]
    rw [show ((out_max : ℚ) - (out_min : ℚ)) * (in_max - in_min) /
        ((out_max : ℚ) - (out_min : ℚ)) + in_min =
        (in_max - in_min) * (((out_max : ℚ) - (out_min : ℚ)) /
        ((out_max : ℚ) - (out_min : ℚ))) + in_min by ring]
    rw [div_self hsubz]
    rw [show (in_max - in_min) * 1 + in_min = in_max by ring]
    rw [hmax]

/-- Witness for `c1_amended` at the motor-power tuple
`(-1.0, 1.0, -1000, 1000)` with precision 3. -/
theorem c1_witness :
    map_to_int (-1) (-1) 1 (-1000) 1000 = some (-1000) ∧
    map_to_int 1 (-1) 1 (-1000) 1000 = some 1000 ∧
    map_to_float (-1000) (-1000) 1000 (-1) 1 3 = some (-1) ∧
    map_to_float 1000 (-1000) 1000 (-1) 1 3 = some 1 := by
  have h := c1_amended (-1) 1 (-1000) 1000 3 (by norm_num)
  exact ⟨h.1, h.2.1,
    h.2.2.1 (by decide) (by simpa using pyRound_intCast (-1) 3),
    h.2.2.2 (by decide) (by simpa using pyRound_intCast 1 3)⟩

/-- Claim C2: on a non-degenerate input range, `map_to_int` is exactly
the affine image truncated toward zero, and `map_to_float` is exactly
the affine image rounded (ties-to-even) to `precision` decimal
digits. -/
theorem c2_codec_characterisation :
    (∀ (x in_min in_max : ℚ) (out_min out_max : ℤ),
      in_min ≠ in_max → in_min ≤ x → x ≤ in_max →
      map_to_int x in_min in_max out_min out_max =
        some (truncToZero (affine_image in_min in_max out_min out_max x))) ∧
    (∀ (x in_min in_max : ℤ) (out_min out_max : ℚ) (precision : ℕ),
      in_min ≠ in_max → in_min ≤ x → x ≤ in_max →
      map_to_float x in_min in_max out_min out_max precision =
        some (pyRound (affine_image in_min in_max out_min out_max x) precision)) := by
  constructor
  · intro x in_min in_max out_min out_max hne _ _
    have hsub : in_max - in_min ≠ 0 := sub_ne_zero_of_ne (Ne.symm hne)
    unfold map_to_int affine_image
    rw [if_neg hsub]
    congr 2
    ring
  · intro x in_min in_max out_min out_max precision hne _ _
    have hsub : (in_max : ℚ) - (in_min : ℚ) ≠ 0 := by
      intro h
      exact hne (by exact_mod_cast (sub_eq_zero.mp h).symm)
    unfold map_to_float affine_image
    rw [if_neg hsub]
    congr 2
    ring

/-- Witness for `c2_codec_characterisation` at the motor-power range
with `x = 0.0019` and at the wire value `1`. -/
theorem c2_witness :
    map_to_int (19 / 10000) (-1) 1 (-1000) 1000 =
      some (truncToZero (affine_image (-1) 1 (-1000) 1000 (19 / 10000))) ∧
    map_to_float 1 (-1000) 1000 (-1) 1 3 =
      some (pyRound (affine_image (-1000) 1000 (-1) 1 1) 3) :=
  ⟨c2_codec_characterisation.1 (19 / 10000) (-1) 1 (-1000) 1000
      (by norm_num) (by norm_num) (by norm_num),
    c2_codec_characterisation.2 1 (-1000) 1000 (-1) 1 3
      (by decide) (by decide) (by decide)⟩

/-! ## Claims about the motor power round trip -/

theorem pyRound_int_div_1000 (n : ℤ) :
    pyRound ((n : ℚ) / 1000) 3 = (n : ℚ) / 1000 := by
  have h := pyRound_int_div_pow n 3
  norm_num at h
  exact h

/-- Claim C3, counterexample.  Writing `v = 0.0019` and reading back
yields `0.001` (the affine image `1.9` is truncated to the wire
integer `1`), while `round(0.0019, 3) = 0.002`: the round trip
truncates, it does not round. -/
theorem c3_counterexample :
    ((Motor.set_power { enabled := true, value := 0 } (19 / 10000)).bind
        Motor.get_power = some (1 / 1000)) ∧
    pyRound (19 / 10000) 3 = 2 / 1000 ∧
    (1 : ℚ) / 1000 ≠ 2 / 1000 := by
  refine ⟨?_, ?_, by norm_num⟩
  · rw [show Motor.set_power { enabled := true, value := 0 } (19 / 10000) =
        some { enabled := true, value := 1 } by
      unfold Motor.set_power MotorPower.COAST
      rw [if_neg (by norm_num)]
      rw [show map_to_int (19 / 10000) (-1) 1 (-1000) 1000 = some 1 by
        unfold map_to_int truncToZero
        norm_num]
      rfl]
    show Motor.get_power { enabled := true, value := 1 } = some (1 / 1000)
    unfold Motor.get_power map_to_float
    rw [if_neg (by norm_num), if_neg (by norm_num)]
    rw [show (((1 : ℤ) : ℚ) - ((-1000 : ℤ) : ℚ)) * ((1 : ℚ) - (-1)) /
        (((1000 : ℤ) : ℚ) - ((-1000 : ℤ) : ℚ)) + (-1 : ℚ) = 1 / 1000 by norm_num]
    rw [show pyRound (1 / 1000) 3 = 1 / 1000 by
      have h := pyRound_int_div_1000 1
      norm_num at h
      exact h]
  · unfold pyRound roundHalfEven
    norm_num

/-- Claim C3, amended: against the echo firmware, the COAST round trip
holds as claimed, but writing a numeric `v ∈ [-1, 1]` and reading back
returns `trunc(v * 1000) / 1000` — the truncated wire value, obtained
by truncation toward zero rather than by rounding `v` to 3 decimal
digits. -/
theorem c3_amended (st : MotorChannelState) (v : ℚ)
    (h1 : -1 ≤ v) (h2 : v ≤ 1) :
    ((Motor.set_power st MotorPower.COAST).bind Motor.get_power =
      some MotorPower.COAST) ∧
    ((Motor.set_power st v).bind Motor.get_power =
      some ((truncToZero (1000 * v) : ℚ) / 1000)) := by
  constructor
  · unfold Motor.set_power Motor.get_power
    simp
  · have hv : v ≠ MotorPower.COAST := by
      unfold MotorPower.COAST
      intro h
      rw [h] at h1
      norm_num at h1
    unfold Motor.set_power
    rw [if_neg hv]
    rw [show map_to_int v (-1) 1 (-1000) 1000 = some (truncToZero (1000 * v)) by
      unfold map_to_int
      rw [if_neg (by norm_num)]
      congr 2
      push_cast
      ring]
    show Motor.get_power { enabled := true, value := truncToZero (1000 * v) } = _
    unfold Motor.get_power
    rw [if_neg (by simp)]
    unfold map_to_float
    rw [if_neg (by norm_num)]
    rw [show ((truncToZero (1000 * v) : ℚ) - ((-1000 : ℤ) : ℚ)) * ((1 : ℚ) - (-1)) /
        (((1000 : ℤ) : ℚ) - ((-1000 : ℤ) : ℚ)) + (-1 : ℚ) =
        (truncToZero (1000 * v) : ℚ) / 1000 by push_cast; ring]
    rw [pyRound_int_div_1000]

/-- Witness for `c3_amended` at `v = 1/2` from an arbitrary initial
channel state. -/
theorem c3_witness :
    ((Motor.set_power { enabled := true, value := 0 } MotorPower.COAST).bind
        Motor.get_power = some MotorPower.COAST) ∧
    ((Motor.set_power { enabled := true, value := 0 } (1 / 2)).bind
        Motor.get_power = some ((truncToZero (1000 * (1 / 2)) : ℚ) / 1000)) :=
  c3_amended { enabled := true, value := 0 } (1 / 2) (by norm_num) (by norm_num)

/-! ## Claims about status decoding -/

/-- Claim C4, counterexample.  The line `"1,0:245:1:11980:"` ends in a
colon, so Python's `split(':')` produces a final empty field and the
decoded record carries `other = ("",)`, not the empty sequence the
claim states. -/
theorem c4_counterexample :
    PowerStatus.from_status_response "1,0:245:1:11980:" ≠
      some { overcurrent := [true, false], temperature := 245,
             fan_running := true, regulator_voltage := 11980 / 1000,
             other := [] } := by
  intro h
  have e1 : PowerStatus.from_status_response "1,0:245:1:11980:" =
      some { overcurrent := [true, false], temperature := 245,
             fan_running := true,
             regulator_voltage := ((11980 : ℕ) : ℚ) / 1000,
             other := [""] } := rfl
  rw [e1] at h
  have h2 := Option.some_inj.mp h
  have h3 := congrArg PowerStatus.other h2
  simp at h3

/-- Claim C4, amended: the line `"1,0:245:1:11980:"` decodes to
overcurrent = (true, false), temperature = 245, fan_running = true,
regulator_voltage = 11.980, and — because of the trailing colon — a
one-element trailing sequence `other = ("",)`. -/
theorem c4_amended :
    PowerStatus.from_status_response "1,0:245:1:11980:" =
      some { overcurrent := [true, false], temperature := 245,
             fan_running := true, regulator_voltage := 11980 / 1000,
             other := [""] } := by
  have e1 : PowerStatus.from_status_response "1,0:245:1:11980:" =
      some { overcurrent := [true, false], temperature := 245,
             fan_running := true,
             regulator_voltage := ((11980 : ℕ) : ℚ) / 1000,
             other := [""] } := rfl
  rw [e1]
  norm_num

theorem pySplit_colon_append (a b : String) :
    pySplit (a ++ ":" ++ b) ':' = pySplit a ':' ++ pySplit b ':' := by
  have hc : (":" : String) = (⟨[':']⟩ : String) := rfl
  rw [hc]
  exact pySplit_append_sep a b ':'

/-- Appending `:e1:e2` to a line appends the two colon-free fields
`e1`, `e2` to its field list. -/
theorem pySplit_append_two_fields (resp e1 e2 : String)
    (h1 : ':' ∉ e1.data) (h2 : ':' ∉ e2.data) :
    pySplit (resp ++ ":" ++ e1 ++ ":" ++ e2) ':' =
      pySplit resp ':' ++ [e1, e2] := by
  rw [pySplit_colon_append (resp ++ ":" ++ e1) e2,
    pySplit_colon_append resp e1,
    pySplit_of_not_mem e1 ':' h1, pySplit_of_not_mem e2 ':' h2]
  simp

theorem motorStatus_decodeFields_append (fields extra : List String)
    (st : MotorStatus) (h : MotorStatus.decodeFields fields = some st) :
    MotorStatus.decodeFields (fields ++ extra) =
      some { st with other := st.other ++ extra } := by
  match fields with
  | [] =>
    rw [show MotorStatus.decodeFields [] = none from rfl] at h
    exact Option.noConfusion h
  | [a] =>
    rw [show MotorStatus.decodeFields [a] = none from rfl] at h
    exact Option.noConfusion h
  | a :: b :: rest =>
    simp only [List.cons_append] at h ⊢
    cases hpf : pyParseFloat b with
    | none =>
      rw [MotorStatus.decodeFields, hpf] at h
      simp at h
    | some mv =>
      rw [MotorStatus.decodeFields, hpf] at h
      rw [MotorStatus.decodeFields, hpf]
      simp only [Option.map_some'] at h ⊢
      rw [Option.some_inj] at h ⊢
      rw [← h]

theorem powerStatus_decodeFields_append (fields extra : List String)
    (st : PowerStatus) (h : PowerStatus.decodeFields fields = some st) :
    PowerStatus.decodeFields (fields ++ extra) =
      some { st with other := st.other ++ extra } := by
  match fields with
  | [] =>
    rw [show PowerStatus.decodeFields [] = none from rfl] at h
    exact Option.noConfusion h
  | [a] =>
    rw [show PowerStatus.decodeFields [a] = none from rfl] at h
    exact Option.noConfusion h
  | [a, b] =>
    rw [show PowerStatus.decodeFields [a, b] = none from rfl] at h
    exact Option.noConfusion h
  | [a, b, c] =>
    rw [show PowerStatus.decodeFields [a, b, c] = none from rfl] at h
    exact Option.noConfusion h
  | a :: b :: c :: d :: rest =>
    simp only [List.cons_append] at h ⊢
    cases hpi : pyParseInt b with
    | none =>
      rw [PowerStatus.decodeFields, hpi] at h
      simp at h
    | some t =>
      cases hpf : pyParseFloat d with
      | none =>
        rw [PowerStatus.decodeFields, hpi, hpf] at h
        simp at h
      | some v =>
        rw [PowerStatus.decodeFields, hpi, hpf] at h
        rw [PowerStatus.decodeFields, hpi, hpf]
        simp only [Option.some_bind, Option.map_some'] at h ⊢
        rw [Option.some_inj] at h ⊢
        rw [← h]

theorem servoStatus_decodeFields_append (fields extra : List String)
    (st : ServoStatus) (h : ServoStatus.decodeFields fields = some st) :
    ServoStatus.decodeFields (fields ++ extra) = some st := by
  match fields with
  | [] =>
    rw [show ServoStatus.decodeFields [] = none from rfl] at h
    exact Option.noConfusion h
  | [a] =>
    rw [show ServoStatus.decodeFields [a] = none from rfl] at h
    exact Option.noConfusion h
  | a :: b :: rest =>
    simp only [List.cons_append]
    rw [ServoStatus.decodeFields] at h
    rw [ServoStatus.decodeFields]
    exact h

/-- Claim C5, counterexample.  For the servo family the claim fails:
`"1:0:x:y"` (a well-formed servo status line with two extra trailing
fields) decodes successfully but to exactly the same two-boolean
record as the base line `"1:0"` — the `ServoStatus` record has no
`other` field and the extra fields `"x"`, `"y"` are discarded, not
exposed. -/
theorem c5_counterexample :
    ServoStatus.from_status_response "1:0:x:y" =
      ServoStatus.from_status_response "1:0" ∧
    ServoStatus.from_status_response "1:0:x:y" =
      some { watchdog_failed := true, power_good := false } :=
  ⟨rfl, rfl⟩

/-- Claim C5, amended: appending two unknown colon-free trailing
fields to a status line that decodes keeps it decoding for all three
families; the motor and power records expose the extra fields verbatim
in their trailing `other` sequence, while the servo record (which has
no trailing sequence) merely ignores them. -/
theorem c5_amended (resp e1 e2 : String)
    (h1 : ':' ∉ e1.data) (h2 : ':' ∉ e2.data) :
    (∀ st, MotorStatus.from_status_response resp = some st →
      MotorStatus.from_status_response (resp ++ ":" ++ e1 ++ ":" ++ e2) =
        some { st with other := st.other ++ [e1, e2] }) ∧
    (∀ st, PowerStatus.from_status_response resp = some st →
      PowerStatus.from_status_response (resp ++ ":" ++ e1 ++ ":" ++ e2) =
        some { st with other := st.other ++ [e1, e2] }) ∧
    (∀ st, ServoStatus.from_status_response resp = some st →
      ServoStatus.from_status_response (resp ++ ":" ++ e1 ++ ":" ++ e2) =
        some st) := by
  refine ⟨?_, ?_, ?_⟩
  · intro st hst
    unfold MotorStatus.from_status_response at hst ⊢
    rw [pySplit_append_two_fields resp e1 e2 h1 h2]
    exact motorStatus_decodeFields_append _ _ st hst
  · intro st hst
    unfold PowerStatus.from_status_response at hst ⊢
    rw [pySplit_append_two_fields resp e1 e2 h1 h2]
    exact powerStatus_decodeFields_append _ _ st hst
  · intro st hst
    unfold ServoStatus.from_status_response at hst ⊢
    rw [pySplit_append_two_fields resp e1 e2 h1 h2]
    exact servoStatus_decodeFields_append _ _ st hst

/-- Witness for `c5_amended` on concrete lines for all three
families, with extra fields `"a"` and `"b"`. -/
theorem c5_witness :
    MotorStatus.from_status_response "1:12000:a:b" =
      some { output_faults := [true],
             input_voltage := ((12000 : ℕ) : ℚ) / 1000,
             other := ["a", "b"] } ∧
    PowerStatus.from_status_response "1,0:245:1:11980:a:b" =
      some { overcurrent := [true, false], temperature := 245,
             fan_running := true,
             regulator_voltage := ((11980 : ℕ) : ℚ) / 1000,
             other := ["a", "b"] } ∧
    ServoStatus.from_status_response "1:0:a:b" =
      some { watchdog_failed := true, power_good := false } :=
  ⟨(c5_amended "1:12000" "a" "b" (by decide) (by decide)).1
      { output_faults := [true],
        input_voltage := ((12000 : ℕ) : ℚ) / 1000, other := [] } rfl,
    (c5_amended "1,0:245:1:11980" "a" "b" (by decide) (by decide)).2.1
      { overcurrent := [true, false], temperature := 245,
        fan_running := true,
        regulator_voltage := ((11980 : ℕ) : ℚ) / 1000, other := [] } rfl,
    (c5_amended "1:0" "a" "b" (by decide) (by decide)).2.2
      { watchdog_failed := true, power_good := false } rfl⟩

/-! ## Claims about construction and cleanup -/

/-- Claim C6: for each driver family, when the identify exchange parses
to an identity whose `board_type` differs from the family's expected
short code, construction fails with the type-mismatch condition and
registers no cleanup hook. -/
theorem c6_fail_fast (resp : String) (identity : BoardIdentity)
    (hid : identifyResponse resp = some identity) :
    (identity.board_type ≠ "MCv4B" →
      MotorBoard.init resp =
        { result := .error (.typeMismatch "MCv4B" identity.board_type)
          atexit_hooks := [] }) ∧
    (identity.board_type ≠ "PBv4B" →
      PowerBoard.init resp =
        { result := .error (.typeMismatch "PBv4B" identity.board_type)
          atexit_hooks := [] }) ∧
    (identity.board_type ≠ "SBv4B" →
      ServoBoard.init resp =
        { result := .error (.typeMismatch "SBv4B" identity.board_type)
          atexit_hooks := [] }) := by
  refine ⟨?_, ?_, ?_⟩ <;> intro hne
  · unfold MotorBoard.init
    rw [hid]
    simp [hne]
  · unfold PowerBoard.init
    rw [hid]
    simp [hne]
  · unfold ServoBoard.init
    rw [hid]
    simp [hne]

/-- Witness for `c6_fail_fast`: an identify response reporting the
(unknown) board type `XXv0A`. -/
theorem c6_witness :
    MotorBoard.init "SRO:XXv0A:tag:4.4" =
      { result := .error (.typeMismatch "MCv4B" "XXv0A")
        atexit_hooks := [] } ∧
    PowerBoard.init "SRO:XXv0A:tag:4.4" =
      { result := .error (.typeMismatch "PBv4B" "XXv0A")
        atexit_hooks := [] } ∧
    ServoBoard.init "SRO:XXv0A:tag:4.4" =
      { result := .error (.typeMismatch "SBv4B" "XXv0A")
        atexit_hooks := [] } := by
  have h := c6_fail_fast "SRO:XXv0A:tag:4.4"
    { manufacturer := "SRO", board_type := "XXv0A",
      asset_tag := "tag", sw_version := "4.4" } rfl
  exact ⟨h.1 (by decide), h.2.1 (by decide), h.2.2 (by decide)⟩

/-- Claim C7, counterexample.  A successful `MotorBoard` construction
registers no cleanup hook: `MotorBoard.__init__` never calls
`atexit.register`, unlike the power and servo drivers. -/
theorem c7_counterexample :
    (MotorBoard.init "SRO:MCv4B:tag:4.4").result =
      .ok { manufacturer := "SRO", board_type := "MCv4B",
            asset_tag := "tag", sw_version := "4.4" } ∧
    (MotorBoard.init "SRO:MCv4B:tag:4.4").atexit_hooks = [] :=
  ⟨rfl, rfl⟩

/-- Claim C7, amended: the power and servo drivers register their
`_cleanup` routine exactly on successful construction, and those
routines catch every exception from the underlying reset and only log
a warning; the motor driver registers no cleanup hook at all. -/
theorem c7_amended (resp : String) (identity : BoardIdentity)
    (hid : identifyResponse resp = some identity)
    (r : Except PyExc Unit) (serial : String) :
    (identity.board_type = "PBv4B" →
      PowerBoard.init resp =
        { result := .ok identity, atexit_hooks := ["PowerBoard._cleanup"] }) ∧
    (identity.board_type = "SBv4B" →
      ServoBoard.init resp =
        { result := .ok identity, atexit_hooks := ["ServoBoard._cleanup"] }) ∧
    (MotorBoard.init resp).atexit_hooks = [] ∧
    (PowerBoard.cleanup r).isOk = true ∧
    (ServoBoard.cleanup serial r).isOk = true := by
  refine ⟨?_, ?_, ?_, ?_, ?_⟩
  · intro he
    unfold PowerBoard.init
    rw [hid]
    simp [he]
  · intro he
    unfold ServoBoard.init
    rw [hid]
    simp [he]
  · unfold MotorBoard.init
    rw [hid]
    by_cases he : identity.board_type = "MCv4B" <;> simp [he]
  · cases r <;> rfl
  · cases r <;> rfl

/-- Witness for `c7_amended` on a power-board identity, with a failing
inner reset. -/
theorem c7_witness :
    ((BoardIdentity.board_type
        { manufacturer := "SRO", board_type := "PBv4B",
          asset_tag := "tag", sw_version := "4.4" } = "PBv4B" →
      PowerBoard.init "SRO:PBv4B:tag:4.4" =
        { result := .ok { manufacturer := "SRO", board_type := "PBv4B",
                          asset_tag := "tag", sw_version := "4.4" }
          atexit_hooks := ["PowerBoard._cleanup"] }) ∧
    (BoardIdentity.board_type
        { manufacturer := "SRO", board_type := "PBv4B",
          asset_tag := "tag", sw_version := "4.4" } = "SBv4B" →
      ServoBoard.init "SRO:PBv4B:tag:4.4" =
        { result := .ok { manufacturer := "SRO", board_type := "PBv4B",
                          asset_tag := "tag", sw_version := "4.4" }
          atexit_hooks := ["ServoBoard._cleanup"] }) ∧
    (MotorBoard.init "SRO:PBv4B:tag:4.4").atexit_hooks = [] ∧
    (PowerBoard.cleanup (.error (.exception "boom"))).isOk = true ∧
    (ServoBoard.cleanup "serial" (.error (.exception "boom"))).isOk = true) :=
  c7_amended "SRO:PBv4B:tag:4.4"
    { manufacturer := "SRO", board_type := "PBv4B",
      asset_tag := "tag", sw_version := "4.4" } rfl
    (.error (.exception "boom")) "serial"

/-! ## Claims about command routing -/

/-- Claim C8: `PowerBoard.reset` writes the board-global `*RESET` and
then always re-issues the system-level brain-output disable; the
per-channel `enable` routes the brain output through that same
system-level command, which is never the ordinary per-channel `OUT:`
command, and every other output index uses the per-channel command. -/
theorem c8_reset_and_brain_routing :
    PowerBoard.reset_commands = ["*RESET", sysBrainSetCommand false] ∧
    (∀ v, Output.enable BRAIN_OUTPUT v = sysBrainSetCommand v) ∧
    (∀ i v w, Output.enable BRAIN_OUTPUT v ≠ outSetCommand i w) ∧
    (∀ i v, i ≠ BRAIN_OUTPUT → Output.enable i v = outSetCommand i v) := by
  have hbrain : ∀ v, Output.enable BRAIN_OUTPUT v = sysBrainSetCommand v := by
    intro v
    unfold Output.enable
    rw [if_pos rfl]
  have hstar : ∀ v, (sysBrainSetCommand v).data.head? = some '*' := by
    intro v
    cases v <;> rfl
  have hout : ∀ i w, (outSetCommand i w).data.head? = some 'O' := by
    intro i w
    unfold outSetCommand
    rw [String.data_append, String.data_append, String.data_append]
    rw [show ("OUT:" : String).data = 'O' :: "UT:".data from rfl]
    simp
  refine ⟨rfl, hbrain, ?_, ?_⟩
  · intro i v w h
    have hs := hstar v
    rw [← hbrain v] at hs
    rw [h, hout i w] at hs
    simp at hs
  · intro i v hne
    unfold Output.enable
    rw [if_neg hne]

/-- Witness for `c8_reset_and_brain_routing` at output index 0. -/
theorem c8_witness : Output.enable 0 true = outSetCommand 0 true :=
  c8_reset_and_brain_routing.2.2.2 0 true (by decide)

/-! ## Claims about discovery -/

theorem discoverLoop_eq_filter_map (pv : List VidPid)
    (ports : List ListPortInfo) :
    discoverLoop pv ports =
      (ports.filter fun port =>
        match port.vid, port.pid with
        | some v, some p => decide ((⟨v, p⟩ : VidPid) ∈ pv)
        | _, _ => false).map
        fun port => ⟨port.device, get_USB_identity port⟩ := by
  induction ports with
  | nil => rfl
  | cons port rest ih =>
    rw [discoverLoop, List.filter_cons]
    cases hvid : port.vid with
    | none => simp [hvid, ih]
    | some v =>
      cases hpid : port.pid with
      | none => simp [hvid, hpid, ih]
      | some p =>
        by_cases hm : (⟨v, p⟩ : VidPid) ∈ pv
        · simp [hvid, hpid, hm, ih]
        · simp [hvid, hpid, hm, ih]

/-- Claim C9: discovery returns nothing for an empty candidate set,
treats a single `VidPid` as a one-element set, and in general returns
exactly one `Port` per enumerated device that has both IDs and whose
`VidPid` is in the candidate set, in enumeration order, skipping
ID-less devices without aborting. -/
theorem c9_discovery (comports : List ListPortInfo)
    (pidvids : List VidPid) (single : VidPid) :
    discover_boards (.inr []) comports = [] ∧
    discover_boards (.inl single) comports =
      discover_boards (.inr [single]) comports ∧
    discover_boards (.inr pidvids) comports =
      (comports.filter fun port =>
        match port.vid, port.pid with
        | some v, some p => decide ((⟨v, p⟩ : VidPid) ∈ pidvids)
        | _, _ => false).map
        fun port => ⟨port.device, get_USB_identity port⟩ := by
  refine ⟨?_, rfl, discoverLoop_eq_filter_map pidvids comports⟩
  show discoverLoop [] comports = []
  rw [discoverLoop_eq_filter_map]
  rw [List.filter_eq_nil_iff.mpr ?_]
  · rfl
  · intro port _
    cases port.vid <;> cases port.pid <;> simp

/-! ## Claim about identify parsing -/

/-- Claim C10: `identify` builds the `BoardIdentity` positionally from
the colon-split response; up to four fields succeed with missing
trailing fields defaulted to `""`, five or more fields raise
`TypeError`. -/
theorem c10_identify_positional (response : String) :
    ((pySplit response ':').length ≤ 4 →
      identifyResponse response = some
        { manufacturer := (pySplit response ':').getD 0 ""
          board_type := (pySplit response ':').getD 1 ""
          asset_tag := (pySplit response ':').getD 2 ""
          sw_version := (pySplit response ':').getD 3 "" }) ∧
    (4 < (pySplit response ':').length → identifyResponse response = none) := by
  unfold identifyResponse
  rcases hsp : pySplit response ':' with _ | ⟨a, _ | ⟨b, _ | ⟨c, _ | ⟨d, _ | ⟨e, rest⟩⟩⟩⟩⟩ <;>
    constructor <;> intro hlen
  · simp [BoardIdentity.ofFields, List.getD]
  · simp at hlen
  · simp [BoardIdentity.ofFields, List.getD]
  · simp at hlen
  · simp [BoardIdentity.ofFields, List.getD]
  · simp at hlen
  · simp [BoardIdentity.ofFields, List.getD]
  · simp at hlen
  · simp [BoardIdentity.ofFields, List.getD]
  · simp at hlen
  · simp at hlen
  · rfl

/-- Witness for `c10_identify_positional`: a two-field response
succeeds with defaults, a five-field response fails. -/
theorem c10_witness :
    identifyResponse "Student Robotics:PBv4B" =
      some { manufacturer := "Student Robotics", board_type := "PBv4B",
             asset_tag := "", sw_version := "" } ∧
    identifyResponse "a:b:c:d:e" = none :=
  ⟨(c10_identify_positional "Student Robotics:PBv4B").1 (by decide),
    (c10_identify_positional "a:b:c:d:e").2 (by decide)⟩
